import Mathlib

/-!
Verification of the multirotor / tilt-rotor mixer
(`src/lib/mixer/MultirotorMixer/MultirotorMixer.cpp`).

The desaturation engine, the mixing policies, the slew-rate limiter and the
textual-descriptor front end are embedded over an arbitrary linear ordered
field (instantiated at `ℚ` for concrete evaluation); the tilt-rotor
allocation `mix_vtol`, which uses `sin`, `cos`, `atan2` and `sqrt`, is
embedded over `ℝ`.
-/

namespace Mixer

/-- The `saturation_status` bit-flag set of the mixer.
Modelled from the spec: the header declaring the bitfield is not part of the
sources; §3 of the design describes "one pair (positive/negative) per control
axis (roll, pitch, yaw, thrust) plus a 'valid' flag", and
`compute_desaturation_gain` additionally sets a `motor_neg`/`motor_pos` pair. -/
structure SatFlags where
  valid      : Bool
  motor_pos  : Bool
  motor_neg  : Bool
  roll_pos   : Bool
  roll_neg   : Bool
  pitch_pos  : Bool
  pitch_neg  : Bool
  yaw_pos    : Bool
  yaw_neg    : Bool
  thrust_pos : Bool
  thrust_neg : Bool
deriving DecidableEq, Repr

/-- `_saturation_status.value = 0`: every flag cleared. -/
def SatFlags.empty : SatFlags :=
  ⟨false, false, false, false, false, false, false, false, false, false, false⟩

/-- One row of the rotor table: `MultirotorMixer::Rotor`. -/
structure Rotor (α : Type) where
  roll_scale   : α
  pitch_scale  : α
  yaw_scale    : α
  thrust_scale : α
deriving DecidableEq, Repr

variable {α : Type} [LinearOrderedField α]

/-- `FLT_EPSILON` (= 2⁻²³), the threshold below which a desaturation-vector
entry is skipped. -/
def fltEps : α := 1 / 8388608

/-- Accumulator of the loop in `compute_desaturation_gain`:
the running `k_min`, `k_max` and the saturation flags. -/
structure DesatAcc (α : Type) where
  kmin : α
  kmax : α
  sat  : SatFlags

/-- Body of the loop in `compute_desaturation_gain` (lines 175–200) for one
actuator: `d` is `desaturation_vector[i]`, `o` is `outputs[i]`. -/
def desatBody (mn mx : α) (a : DesatAcc α) (d o : α) : DesatAcc α :=
  if |d| < fltEps then a
  else
    let a1 :=
      if o < mn then
        let k := (mn - o) / d
        ⟨if k < a.kmin then k else a.kmin,
         if k > a.kmax then k else a.kmax,
         { a.sat with motor_neg := true }⟩
      else a
    if o > mx then
      let k := (mx - o) / d
      ⟨if k < a1.kmin then k else a1.kmin,
       if k > a1.kmax then k else a1.kmax,
       { a1.sat with motor_pos := true }⟩
    else a1

/-- `MultirotorMixer::compute_desaturation_gain` (lines 168–204).
The two arrays, both of length `_rotor_count`, are passed zipped through the
loop; the function returns `k_min + k_max` together with the updated
saturation flags (the C++ updates them through a reference). -/
def compute_desaturation_gain (desat outs : List α) (sat : SatFlags)
    (mn mx : α) : α × SatFlags :=
  let acc := (desat.zip outs).foldl (fun a p => desatBody mn mx a p.1 p.2)
    ⟨0, 0, sat⟩
  (acc.kmin + acc.kmax, acc.sat)

/-- `outputs[i] += k * desaturation_vector[i]` for all `i`. -/
def applyK (k : α) (desat outs : List α) : List α :=
  List.zipWith (fun d o => o + k * d) desat outs

/-- `MultirotorMixer::minimize_saturation` (lines 206–228): compute the gain
`k1`; if `reduce_only` and `k1 > 0` leave the outputs untouched; otherwise
apply `k1`, recompute the gain on the updated outputs and apply half of it. -/
def minimize_saturation (desat outs : List α) (sat : SatFlags)
    (mn mx : α) (reduceOnly : Bool) : List α × SatFlags :=
  let r1 := compute_desaturation_gain desat outs sat mn mx
  if reduceOnly && decide (r1.1 > 0) then (outs, r1.2)
  else
    let o1 := applyK r1.1 desat outs
    let r2 := compute_desaturation_gain desat o1 r1.2 mn mx
    let k2 := (1 / 2 : α) * r2.1
    (applyK k2 desat o1, r2.2)

/-- Spec-side description of one actuator's contribution to the set of
computed desaturation gains: skipped entirely when `|d|` is below epsilon,
otherwise `(mn - o)/d` when the output is below the lower bound and
`(mx - o)/d` when it is above the upper bound. -/
def actuatorKs (mn mx d o : α) : List α :=
  if |d| < fltEps then []
  else (if o < mn then [(mn - o) / d] else [])
    ++ (if o > mx then [(mx - o) / d] else [])

/-- All gains computed during one sweep of `compute_desaturation_gain`,
in loop order. -/
def desatKs (mn mx : α) (l : List (α × α)) : List α :=
  l.flatMap fun p => actuatorKs mn mx p.1 p.2

/-- Whether some actuator triggers the below-`mn` branch. -/
def anyNeg (mn : α) (l : List (α × α)) : Bool :=
  l.any fun p => !decide (|p.1| < fltEps) && decide (p.2 < mn)

/-- Whether some actuator triggers the above-`mx` branch. -/
def anyPos (mx : α) (l : List (α × α)) : Bool :=
  l.any fun p => !decide (|p.1| < fltEps) && decide (p.2 > mx)

/-- `MultirotorMixer::mix_airmode_rpy` (lines 251–276): full mixing of
roll, pitch, yaw and thrust, one desaturation pass against the thrust
column, then one more desaturation pass against the yaw column.
The bounds of the two `minimize_saturation` calls are the default
arguments of the (out-of-tree) header; modelled from the spec:
the default bounds are the actuator output range `[0, 1]`. -/
def mix_airmode_rpy (rotors : List (Rotor α)) (roll pitch yaw thrust : α)
    (sat : SatFlags) : List α × SatFlags :=
  let outputs := rotors.map fun r =>
    roll * r.roll_scale + pitch * r.pitch_scale + yaw * r.yaw_scale
      + thrust * r.thrust_scale
  let tmpT := rotors.map Rotor.thrust_scale
  let r1 := minimize_saturation tmpT outputs sat 0 1 false
  let tmpY := rotors.map Rotor.yaw_scale
  minimize_saturation tmpY r1.1 r1.2 0 1 false

/-- The full-authority policy as the specification words it: mix
roll+pitch+yaw+thrust into raw outputs and desaturate once against the
thrust column, with no other desaturation pass.  (Spec-side definition, to
be compared with `mix_airmode_rpy` above.) -/
def mix_airmode_rpy_claimed (rotors : List (Rotor α))
    (roll pitch yaw thrust : α) (sat : SatFlags) : List α × SatFlags :=
  let outputs := rotors.map fun r =>
    roll * r.roll_scale + pitch * r.pitch_scale + yaw * r.yaw_scale
      + thrust * r.thrust_scale
  let tmpT := rotors.map Rotor.thrust_scale
  minimize_saturation tmpT outputs sat 0 1 false

/-- `math::constrain(val, min_val, max_val)`:
`(val < min_val) ? min_val : ((val > max_val) ? max_val : val)`. -/
def constrain (x lo hi : α) : α :=
  if x < lo then lo else if x > hi then hi else x

/-- The slew-rate limiting applied in `MultirotorMixer::mix`
(lines 563–581) to one output value: when `_delta_out_max > 0`, a change
relative to the previous cycle's value larger than `_delta_out_max` in
magnitude is cut back to exactly `_delta_out_max` in the direction of the
change; otherwise the value passes through. -/
def slewLimit (prev out dmax : α) : α :=
  if dmax > 0 then
    let delta := out - prev
    if delta > dmax then prev + dmax
    else if delta < -dmax then prev - dmax
    else out
  else out

end Mixer

namespace Mixer.Txt

/-!  The textual geometry descriptor front end:
`MultirotorMixer::from_text` (lines 111–166) and the geometry constructor
`MultirotorMixer::MultirotorMixer` (lines 82–90), over `ℚ`.
The helpers it calls (`string_well_formed`, `skipline`, `sscanf`) live
outside the provided sources and are modelled from the spec. -/

/-- `isspace`-style whitespace for the scanner. -/
def isWS (ch : Char) : Bool :=
  ch = ' ' || ch = '\t' || ch = '\n' || ch = '\r'

/-- Modelled from the spec: `Mixer::string_well_formed` ("parsing fails if
the line is not newline-terminated") — the first `buflen` characters must
contain a newline. -/
def string_well_formed (buf : List Char) (buflen : ℕ) : Bool :=
  (buf.take buflen).contains '\n'

/-- Modelled from the spec: `Mixer::skipline` — advance past the next
newline, failing when there is none. -/
def skipline (buf : List Char) : Option (List Char) :=
  match buf.dropWhile (fun ch => ch ≠ '\n') with
  | [] => none
  | _ :: rest => some rest

/-- `%7s`: skip whitespace, then read up to 7 non-whitespace characters;
fails on an empty token. -/
def scanTok (s : List Char) : Option (List Char × List Char) :=
  let s1 := s.dropWhile isWS
  let tok := (s1.takeWhile (fun ch => !isWS ch)).take 7
  if tok.isEmpty then none else some (tok, s1.drop tok.length)

/-- Decimal digits to a natural number. -/
def digitsVal (l : List Char) : ℕ :=
  l.foldl (fun a ch => 10 * a + (ch.toNat - 48)) 0

/-- `%d`: skip whitespace, optional sign, then at least one digit. -/
def scanInt (s : List Char) : Option (Int × List Char) :=
  let s1 := s.dropWhile isWS
  match s1 with
  | '-' :: rest =>
    let ds := rest.takeWhile Char.isDigit
    if ds.isEmpty then none
    else some (-(digitsVal ds : Int), rest.drop ds.length)
  | '+' :: rest =>
    let ds := rest.takeWhile Char.isDigit
    if ds.isEmpty then none
    else some ((digitsVal ds : Int), rest.drop ds.length)
  | _ =>
    let ds := s1.takeWhile Char.isDigit
    if ds.isEmpty then none
    else some ((digitsVal ds : Int), s1.drop ds.length)

/-- Modelled from the spec: `sscanf(buf, "R: %7s %d %d %d %d%n", ...)`
scanning the single descriptor line
`R: <geometry-key> <roll*10000> <pitch*10000> <yaw*10000> <idle*10000>`.
Returns the key, the four fixed-point integers and the number of
characters consumed (`%n`). -/
def scanDescriptor (buf : List Char) :
    Option (List Char × Int × Int × Int × Int × ℕ) :=
  match buf with
  | 'R' :: ':' :: rest =>
    match scanTok rest with
    | none => none
    | some (tok, r1) =>
      match scanInt r1 with
      | none => none
      | some (a, r2) =>
        match scanInt r2 with
        | none => none
        | some (bv, r3) =>
          match scanInt r3 with
          | none => none
          | some (cv, r4) =>
            match scanInt r4 with
            | none => none
            | some (dv, r5) => some (tok, a, bv, cv, dv, buf.length - r5.length)
  | _ => none

/-- The mock geometry catalog compiled into the file
(`_config_quad_x`, lines 55–66): the quad-X rotor table. -/
def quadXRotors : List (Rotor ℚ) :=
  [⟨-707107/1000000,  707107/1000000,  1, 1⟩,
   ⟨ 707107/1000000, -707107/1000000,  1, 1⟩,
   ⟨ 707107/1000000,  707107/1000000, -1, 1⟩,
   ⟨-707107/1000000, -707107/1000000, -1, 1⟩]

/-- A constructed mixer instance: the per-axis scales and stored idle
speed together with the selected rotor table. -/
structure MixerCfg where
  rollScale  : ℚ
  pitchScale : ℚ
  yawScale   : ℚ
  idleSpeed  : ℚ
  rotors     : List (Rotor ℚ)
deriving DecidableEq, Repr

/-- The geometry constructor (lines 82–90): stores the scales unchanged
and shifts the idle speed to the output range,
`_idle_speed = -1.0f + idle_speed * 2.0f`. -/
def mkMultirotorMixer (rotors : List (Rotor ℚ)) (roll pitch yaw idle : ℚ) :
    MixerCfg :=
  ⟨roll, pitch, yaw, -1 + idle * 2, rotors⟩

/-- The catalog lookup loop (lines 143–154) over the mock catalog, whose
single key is `"4x"`. -/
def catalogLookup (geom : List Char) : Option (List (Rotor ℚ)) :=
  if geom = ['4', 'x'] then some quadXRotors else none

/-- `MultirotorMixer::from_text` (lines 111–166): well-formedness check,
descriptor scan, overflow check, line skip, catalog lookup, then
construction with each integer divided by 10000. -/
def from_text (buf : List Char) (buflen : ℕ) : Option MixerCfg :=
  if !string_well_formed buf buflen then none
  else
    match scanDescriptor buf with
    | none => none
    | some (geom, s0, s1, s2, s3, used) =>
      if used > buflen then none
      else
        match skipline buf with
        | none => none
        | some _ =>
          match catalogLookup geom with
          | none => none
          | some rotors =>
            some (mkMultirotorMixer rotors
              ((s0 : ℚ) / 10000) ((s1 : ℚ) / 10000)
              ((s2 : ℚ) / 10000) ((s3 : ℚ) / 10000))

end Mixer.Txt

namespace Mixer.Vtol

/-!  `MultirotorMixer::mix_vtol` (lines 335–544) and the entry point
`MultirotorMixer::mix` (lines 546–591), embedded over `ℝ`.
The control callback `get_control(0, idx)` is modelled as a read-only
oracle `c : ℕ → ℝ`. -/

noncomputable section

open Real

/-- `math::radians`. -/
def radians (x : ℝ) : ℝ := x * π / 180

-- platform parameters (lines 338–346)
def h_0 : ℝ := 0.015
def L_0 : ℝ := 0.29
def l_1 : ℝ := 0.1575
def l_3 : ℝ := 0.105
def l_4 : ℝ := 0.105
def C_T : ℝ := 1.11919e-5
def C_Q : ℝ := 1.99017e-7
def C : ℝ := C_Q / C_T
def d_chi_max : ℝ := radians 10

-- aerodynamics (lines 349–358)
def C_La : ℝ := 0.058649
def C_Me : ℝ := 0.55604
def C_Nr : ℝ := 0.055604
def S : ℝ := 0.4266
def b : ℝ := 2
def c_bar : ℝ := 0.2
def L_factor : ℝ := C_La * S * b
def M_factor : ℝ := C_Me * S * c_bar
def N_factor : ℝ := C_Nr * S * b
def delta_min : ℝ := radians (-35)
def delta_max : ℝ := radians 35

-- denormalization constants (lines 374–377)
def T_MAX : ℝ := 48
def chi_MAX : ℝ := radians 90
def M_MAX : ℝ := 2
def AIRSPD_MAX : ℝ := 40

-- inputs, clamped then denormalized (lines 364–386)
def Lm (c : ℕ → ℝ) : ℝ := constrain (c 0) (-1) 1 * M_MAX
def Mm (c : ℕ → ℝ) : ℝ := constrain (c 1) (-1) 1 * M_MAX
def Nm (c : ℕ → ℝ) : ℝ := constrain (c 2) (-1) 1 * M_MAX
def T (c : ℕ → ℝ) : ℝ := constrain (c 3) 0 1 * T_MAX
def chi_cmd (c : ℕ → ℝ) : ℝ := constrain (c 4) (-1) 1 * chi_MAX
def airspd (c : ℕ → ℝ) : ℝ := constrain (c 5) 1e-8 1 * AIRSPD_MAX

-- control-surface deflections (lines 388–399)
def q_bar (c : ℕ → ℝ) : ℝ := 0.5 * 1.2 * airspd c * airspd c
def L_ (c : ℕ → ℝ) : ℝ := L_factor * q_bar c
def M_ (c : ℕ → ℝ) : ℝ := M_factor * q_bar c
def N_ (c : ℕ → ℝ) : ℝ := N_factor * q_bar c

/-- Speed ramp `constrain((airspd - 4)/6, 0, 1)` (line 395). -/
def surfScale (c : ℕ → ℝ) : ℝ := constrain ((airspd c - 4) / 6) 0 1

def delta_a (c : ℕ → ℝ) : ℝ :=
  constrain (Lm c / L_ c * surfScale c) delta_min delta_max
def delta_e (c : ℕ → ℝ) : ℝ :=
  constrain (Mm c / M_ c * surfScale c) delta_min delta_max
def delta_r (c : ℕ → ℝ) : ℝ :=
  constrain (Nm c / N_ c * surfScale c) delta_min delta_max

-- residual moments after the surface contribution (lines 401–403)
def Lres (c : ℕ → ℝ) : ℝ := Lm c - L_ c * delta_a c
def Mres (c : ℕ → ℝ) : ℝ := Mm c - M_ c * delta_e c
def Nres (c : ℕ → ℝ) : ℝ := Nm c - N_ c * delta_r c

-- geometry abbreviations (lines 412–431)
def l_34 : ℝ := l_3 + l_4
def temp1 : ℝ := 2 * (l_1 * l_1) + l_3 * l_4
def temp2 : ℝ := 2 * temp1 + l_3 * l_3 + l_4 * l_4
def denom_1 (chi : ℝ) : ℝ := temp2 + 4 * cos chi * l_1 * l_34
def denom_2 : ℝ := 4 * (C * C + L_0 * L_0)

/-- `(i >= 2 && i <= 5) * 2.0f - 1.0f` (line 434). -/
def sign_1 (i : ℕ) : ℝ := if 2 ≤ i ∧ i ≤ 5 then 1 else -1
/-- `(i >= 4) * 2.0f - 1.0f` (line 435). -/
def sign_2 (i : ℕ) : ℝ := if 4 ≤ i then 1 else -1
/-- `(i%4 == 0 || (i-1)%4 == 0) * 2.0f - 1.0f` (line 436). -/
def sign_3 (i : ℕ) : ℝ := if i % 4 = 0 ∨ (i - 1) % 4 = 0 then 1 else -1
/-- `0.5f*(1 + sign_1)*l_3 + 0.5f*(1 - sign_1)*l_4` (line 437). -/
def l_arm (i : ℕ) : ℝ := 0.5 * (1 + sign_1 i) * l_3 + 0.5 * (1 - sign_1 i) * l_4

/-- Entry `(i, j)` of the pseudo-inverse `A_pinv` (lines 440–491), as a
function of the commanded tilt angle `chi`. -/
def Apinv (chi : ℝ) (i j : ℕ) : ℝ :=
  if i % 2 = 0 then
    if j = 0 then
      (temp2 * cos chi - sign_1 i * 2 * h_0 * l_34 * sin chi
        + 4 * l_1 * l_34 * (cos chi * cos chi)) / (4 * denom_1 chi)
    else if j = 1 then
      -((temp1 + l_arm i * l_arm i) * sin chi + l_1 * l_34 * sin (2 * chi))
        / (2 * denom_1 chi)
    else if j = 2 then
      (-sign_2 i * L_0 * sin chi + sign_3 i * C * cos chi) / denom_2
    else if j = 3 then
      -sign_1 i * sin chi * l_34 / (2 * denom_1 chi)
    else
      (sign_2 i * L_0 * cos chi + sign_3 i * C * sin chi) / denom_2
  else
    if j = 0 then
      (temp2 * sin chi + sign_1 i * 2 * h_0 * (cos chi * l_34 + 2 * l_1)
        + 2 * l_1 * l_34 * sin (2 * chi)) / (4 * denom_1 chi)
    else if j = 1 then
      (2 * l_1 * l_arm i + (temp1 + l_arm i * l_arm i) * cos chi
        + l_1 * l_34 * cos (2 * chi)) / (2 * denom_1 chi)
    else if j = 2 then
      (sign_2 i * L_0 * cos chi + sign_3 i * C * sin chi) / denom_2
    else if j = 3 then
      sign_1 i * (2 * l_1 + l_34 * cos chi) / (2 * denom_1 chi)
    else
      (sign_2 i * L_0 * sin chi - sign_3 i * C * cos chi) / denom_2

/-- The intermediate force components `v[0..7]` (lines 508–515). -/
def v (c : ℕ → ℝ) (i : ℕ) : ℝ :=
  Apinv (chi_cmd c) i 0 * T c * sin (chi_cmd c)
    + Apinv (chi_cmd c) i 1 * T c * cos (chi_cmd c)
    + Apinv (chi_cmd c) i 2 * Lres c
    + Apinv (chi_cmd c) i 3 * Mres c
    + Apinv (chi_cmd c) i 4 * Nres c

/-- `atan2f(y, x)` on the reals. -/
def atan2 (y x : ℝ) : ℝ :=
  if 0 < x then arctan (y / x)
  else if x < 0 then
    (if 0 ≤ y then arctan (y / x) + π else arctan (y / x) - π)
  else if 0 < y then π / 2
  else if y < 0 then -(π / 2)
  else 0

/-- Thrust-dependent activation `constrain(0.25f*(T - 2.0f), 0, 1)`
(line 517). -/
def tiltScale (c : ℕ → ℝ) : ℝ := constrain (0.25 * (T c - 2)) 0 1

/-- Right-side tilt-angle correction (line 518). -/
def d_chi_r (c : ℕ → ℝ) : ℝ := tiltScale c * atan2 (v c 0 + v c 2) (v c 1 + v c 3)

/-- Left-side tilt-angle correction (line 519). -/
def d_chi_l (c : ℕ → ℝ) : ℝ := tiltScale c * atan2 (v c 4 + v c 6) (v c 5 + v c 7)

-- per-rotor axial thrust with the (unclamped) corrected angles (lines 525–528)
def t1 (c : ℕ → ℝ) : ℝ := v c 0 * sin (d_chi_r c) + v c 1 * cos (d_chi_r c)
def t2 (c : ℕ → ℝ) : ℝ := v c 2 * sin (d_chi_r c) + v c 3 * cos (d_chi_r c)
def t3 (c : ℕ → ℝ) : ℝ := v c 4 * sin (d_chi_l c) + v c 5 * cos (d_chi_l c)
def t4 (c : ℕ → ℝ) : ℝ := v c 6 * sin (d_chi_l c) + v c 7 * cos (d_chi_l c)

-- tilt angles after clamping the correction (lines 530–534)
def chi_r (c : ℕ → ℝ) : ℝ :=
  chi_cmd c + constrain (d_chi_r c) (-d_chi_max) d_chi_max
def chi_l (c : ℕ → ℝ) : ℝ :=
  chi_cmd c + constrain (d_chi_l c) (-d_chi_max) d_chi_max

/-- The seven outputs written by `mix_vtol` (lines 537–543); indices ≥ 7 are
never written. -/
def vtolOut (c : ℕ → ℝ) : ℕ → ℝ := fun j =>
  if j = 0 then -1.146746 + Real.sqrt (0.0821782 + 0.355259 * t1 c)
  else if j = 1 then -1.146746 + Real.sqrt (0.0821782 + 0.355259 * t2 c)
  else if j = 2 then -1.146746 + Real.sqrt (0.0821782 + 0.355259 * t3 c)
  else if j = 3 then -1.146746 + Real.sqrt (0.0821782 + 0.355259 * t4 c)
  else if j = 4 then -0.9602 * chi_l c + 0.7106
  else if j = 5 then 0.9602 * chi_r c - 0.7106
  else if j = 6 then
    -(2 * delta_a c - (delta_max + delta_min)) / (delta_max - delta_min)
  else 0

/-- The cross-cycle state of the mixer instance: the previous-cycle tilt
outputs `_outputs_prev[4]`, `_outputs_prev[5]` (the only entries the live
code reads or writes), the one-shot slew budget `_delta_out_max`, and the
saturation flags `_saturation_status`. -/
structure MixState where
  prev4 : ℝ
  prev5 : ℝ
  deltaOutMax : ℝ
  sat : SatFlags

/-- `MultirotorMixer::mix` (lines 546–591): capacity guard against
`_rotor_count`, clearing of the saturation flags, the `mix_vtol` call,
slew limiting of outputs 4 and 5, snapshotting those outputs, zeroing the
slew budget, and the return value 7.  Returns the count, the final output
buffer and the final instance state. -/
def mix (rotorCount : ℕ) (st : MixState) (c : ℕ → ℝ) (buf : ℕ → ℝ)
    (space : ℕ) : ℕ × (ℕ → ℝ) × MixState :=
  if space < rotorCount then (0, buf, st)
  else
    let raw := vtolOut c
    let o4 := slewLimit st.prev4 (raw 4) st.deltaOutMax
    let o5 := slewLimit st.prev5 (raw 5) st.deltaOutMax
    let buf1 := fun j =>
      if j = 4 then o4 else if j = 5 then o5
      else if j < 7 then raw j else buf j
    (7, buf1, ⟨o4, o5, 0, SatFlags.empty⟩)

end

end Mixer.Vtol

/-! ## Theorems -/

section Desaturation

open Mixer

variable {α : Type} [LinearOrderedField α]

lemma ifLtMin (x k : α) : (if k < x then k else x) = min x k := by
  rcases lt_or_ge k x with h | h
  · rw [if_pos h, min_eq_right h.le]
  · rw [if_neg (not_lt.mpr h), min_eq_left h]

lemma ifGtMax (x k : α) : (if k > x then k else x) = max x k := by
  rcases lt_or_ge x k with h | h
  · rw [if_pos h, max_eq_right h.le]
  · rw [if_neg (not_lt.mpr h), max_eq_left h]

lemma ifLtMin2 (x y k : α) :
    (if k < x ∧ k < y then k else min x y) = min (min x y) k := by
  simp only [← lt_min_iff]
  exact ifLtMin (min x y) k

lemma ifGtMax2 (x y k : α) :
    (if x < k ∧ y < k then k else max x y) = max (max x y) k := by
  simp only [← max_lt_iff]
  exact ifGtMax (max x y) k

/-- One loop iteration of `compute_desaturation_gain` folds `min`/`max`
over the gains of that actuator and or-accumulates the two flags. -/
lemma desatBody_spec (mn mx d o : α) (a : DesatAcc α) :
    desatBody mn mx a d o =
      ⟨(actuatorKs mn mx d o).foldl min a.kmin,
       (actuatorKs mn mx d o).foldl max a.kmax,
       { a.sat with
         motor_neg := a.sat.motor_neg
           || (!decide (|d| < fltEps) && decide (o < mn)),
         motor_pos := a.sat.motor_pos
           || (!decide (|d| < fltEps) && decide (o > mx)) }⟩ := by
  unfold desatBody actuatorKs
  by_cases h1 : |d| < fltEps
  · simp [h1]
  · by_cases h2 : o < mn <;> by_cases h3 : o > mx <;>
      simp [h1, h2, h3, ifLtMin, ifGtMax, ifLtMin2, ifGtMax2]

/-- The whole loop of `compute_desaturation_gain`: the final `k_min` is the
`min`-fold of the computed gains over the initial `k_min`, the final
`k_max` is the `max`-fold, and the flags are or-accumulated. -/
lemma desat_loop_spec (mn mx : α) (l : List (α × α)) (a : DesatAcc α) :
    l.foldl (fun a p => desatBody mn mx a p.1 p.2) a =
      ⟨(desatKs mn mx l).foldl min a.kmin,
       (desatKs mn mx l).foldl max a.kmax,
       { a.sat with
         motor_neg := a.sat.motor_neg || anyNeg mn l,
         motor_pos := a.sat.motor_pos || anyPos mx l }⟩ := by
  induction l generalizing a with
  | nil => simp [desatKs, anyNeg, anyPos]
  | cons p rest ih =>
    rw [List.foldl_cons, ih, desatBody_spec]
    have hks : desatKs mn mx (p :: rest)
        = actuatorKs mn mx p.1 p.2 ++ desatKs mn mx rest := by
      simp [desatKs]
    rw [hks, List.foldl_append, List.foldl_append]
    simp [anyNeg, anyPos, Bool.or_assoc]

/-- `compute_desaturation_gain` as a pair of closed formulas. -/
lemma compute_gain_eq (desat outs : List α) (sat : SatFlags) (mn mx : α) :
    compute_desaturation_gain desat outs sat mn mx
      = ((desatKs mn mx (desat.zip outs)).foldl min 0
          + (desatKs mn mx (desat.zip outs)).foldl max 0,
         { sat with
           motor_neg := sat.motor_neg || anyNeg mn (desat.zip outs),
           motor_pos := sat.motor_pos || anyPos mx (desat.zip outs) }) := by
  unfold compute_desaturation_gain
  rw [desat_loop_spec]

/-- C2: `compute_desaturation_gain` skips every actuator whose direction
entry is below epsilon in magnitude; every remaining actuator below
`min_output` contributes `k = (min_output - outputs[i]) / direction[i]` and
raises the negative-saturation flag, every one above `max_output`
contributes `k = (max_output - outputs[i]) / direction[i]` and raises the
positive-saturation flag; the returned gain is `k_min + k_max` where
`k_min` is the minimum of 0 and all computed `k` and `k_max` the maximum of
0 and all computed `k`. -/
theorem compute_desaturation_gain_spec (desat outs : List α)
    (sat : SatFlags) (mn mx : α) :
    (compute_desaturation_gain desat outs sat mn mx).1
        = (desatKs mn mx (desat.zip outs)).foldl min 0
          + (desatKs mn mx (desat.zip outs)).foldl max 0
      ∧ (compute_desaturation_gain desat outs sat mn mx).2
          = { sat with
              motor_neg := sat.motor_neg || anyNeg mn (desat.zip outs),
              motor_pos := sat.motor_pos || anyPos mx (desat.zip outs) } := by
  rw [compute_gain_eq]
  exact ⟨rfl, rfl⟩

/-- Witness for C2 at a concrete input: direction `[1, -2, 1/10000000]`,
outputs `[3/2, -1/2, 5]`, bounds `[0, 1]`: the epsilon-skipped third
actuator contributes nothing, the first contributes `-1/2`, the second
`-1/4` (its lower violation divided by `-2`), both flags are raised, and
the gain is `min 0 (-1/2) (-1/4) + max 0 (-1/2) (-1/4) = -1/2`. -/
theorem compute_desaturation_gain_spec_w :
    (compute_desaturation_gain ([1, -2, 1/10000000] : List ℚ)
        [3/2, -1/2, 5] SatFlags.empty 0 1).1
        = (desatKs (0 : ℚ) 1 ([1, -2, 1/10000000].zip [3/2, -1/2, 5])).foldl
            min 0
          + (desatKs (0 : ℚ) 1 ([1, -2, 1/10000000].zip [3/2, -1/2, 5])).foldl
            max 0
      ∧ (compute_desaturation_gain ([1, -2, 1/10000000] : List ℚ)
          [3/2, -1/2, 5] SatFlags.empty 0 1).1 = -1/2
      ∧ (compute_desaturation_gain ([1, -2, 1/10000000] : List ℚ)
          [3/2, -1/2, 5] SatFlags.empty 0 1).2.motor_neg = true
      ∧ (compute_desaturation_gain ([1, -2, 1/10000000] : List ℚ)
          [3/2, -1/2, 5] SatFlags.empty 0 1).2.motor_pos = true :=
  ⟨(compute_desaturation_gain_spec [1, -2, 1/10000000] [3/2, -1/2, 5]
      SatFlags.empty 0 1).1,
   by norm_num [compute_desaturation_gain, desatBody, fltEps, abs],
   by norm_num [compute_desaturation_gain, desatBody, fltEps, abs],
   by norm_num [compute_desaturation_gain, desatBody, fltEps, abs]⟩

lemma actuatorKs_in_bounds (mn mx d o : α) (h1 : mn ≤ o) (h2 : o ≤ mx) :
    actuatorKs mn mx d o = [] := by
  unfold actuatorKs
  simp [not_lt.mpr h1, not_lt.mpr h2]

lemma desatKs_in_bounds (mn mx : α) (l : List (α × α))
    (h : ∀ p ∈ l, mn ≤ p.2 ∧ p.2 ≤ mx) : desatKs mn mx l = [] := by
  induction l with
  | nil => rfl
  | cons p rest ih =>
    have hks : desatKs mn mx (p :: rest)
        = actuatorKs mn mx p.1 p.2 ++ desatKs mn mx rest := by
      simp [desatKs]
    have hp := h p (List.mem_cons_self p rest)
    rw [hks, actuatorKs_in_bounds _ _ _ _ hp.1 hp.2, List.nil_append]
    exact ih fun q hq => h q (List.mem_cons_of_mem p hq)

lemma gain_in_bounds (desat outs : List α) (sat : SatFlags) (mn mx : α)
    (hin : ∀ x ∈ outs, mn ≤ x ∧ x ≤ mx) :
    (compute_desaturation_gain desat outs sat mn mx).1 = 0 := by
  have hks : desatKs mn mx (desat.zip outs) = [] :=
    desatKs_in_bounds mn mx _ fun p hp => hin p.2 (List.of_mem_zip hp).2
  rw [compute_gain_eq, hks]
  simp

lemma applyK_zero (desat : List α) : ∀ outs : List α,
    desat.length = outs.length → applyK 0 desat outs = outs := by
  induction desat with
  | nil =>
    intro outs hlen
    cases outs with
    | nil => rfl
    | cons o os => simp at hlen
  | cons d ds ih =>
    intro outs hlen
    cases outs with
    | nil => simp at hlen
    | cons o os =>
      show (o + 0 * d) :: applyK 0 ds os = o :: os
      rw [zero_mul, add_zero, ih os (by simpa using hlen)]

/-- C4: when every output already lies in `[min_output, max_output]`, the
desaturation gain is 0 and `minimize_saturation` (with either value of
`reduce_only`) returns the outputs unchanged. -/
theorem desaturation_in_bounds_noop (desat outs : List α) (sat : SatFlags)
    (mn mx : α) (hlen : desat.length = outs.length)
    (hin : ∀ x ∈ outs, mn ≤ x ∧ x ≤ mx) :
    (compute_desaturation_gain desat outs sat mn mx).1 = 0
      ∧ ∀ ro : Bool, (minimize_saturation desat outs sat mn mx ro).1 = outs := by
  have hg := gain_in_bounds desat outs sat mn mx hin
  refine ⟨hg, fun ro => ?_⟩
  unfold minimize_saturation
  by_cases hc : (ro && decide ((compute_desaturation_gain desat outs sat mn mx).1 > 0)) = true
  · simp only [hc, if_true]
  · simp only [hc, if_false]
    have h1 : applyK (compute_desaturation_gain desat outs sat mn mx).1
        desat outs = outs := by rw [hg]; exact applyK_zero desat outs hlen
    rw [h1]
    have hg2 := gain_in_bounds desat outs
      (compute_desaturation_gain desat outs sat mn mx).2 mn mx hin
    rw [hg2, mul_zero]
    exact applyK_zero desat outs hlen

/-- Witness for C4: two actuators with outputs `[1/2, 3/4]` inside `[0, 1]`
and direction `[2, -3]`: the gain is 0 and both variants of
`minimize_saturation` return the outputs unchanged. -/
theorem desaturation_in_bounds_noop_w :
    (compute_desaturation_gain ([2, -3] : List ℚ) [1/2, 3/4]
        SatFlags.empty 0 1).1 = 0
      ∧ ∀ ro : Bool, (minimize_saturation ([2, -3] : List ℚ) [1/2, 3/4]
          SatFlags.empty 0 1 ro).1 = [1/2, 3/4] :=
  desaturation_in_bounds_noop [2, -3] [1/2, 3/4] SatFlags.empty 0 1
    (by decide) (by norm_num)

/-- C3: a `minimize_saturation` call with `reduce_only = true` whose first
computed gain `k1` is strictly positive returns the output array
unchanged. -/
theorem minimize_saturation_reduce_only_noop (desat outs : List α)
    (sat : SatFlags) (mn mx : α)
    (hk : 0 < (compute_desaturation_gain desat outs sat mn mx).1) :
    (minimize_saturation desat outs sat mn mx true).1 = outs := by
  unfold minimize_saturation
  simp [hk]

/-- Witness for C3: one actuator, direction `[1]`, output `[-1]`, bounds
`[0, 1]`: the gain is `1 > 0` and the reduce-only call keeps `[-1]`. -/
theorem minimize_saturation_reduce_only_noop_w :
    0 < (compute_desaturation_gain ([1] : List ℚ) [-1]
        SatFlags.empty 0 1).1
      ∧ (minimize_saturation ([1] : List ℚ) [-1]
          SatFlags.empty 0 1 true).1 = [-1] :=
  ⟨by norm_num [compute_desaturation_gain, desatBody, fltEps],
   minimize_saturation_reduce_only_noop [1] [-1] SatFlags.empty 0 1
    (by norm_num [compute_desaturation_gain, desatBody, fltEps])⟩

/-- C5 counterexample: on the two-rotor table
`[(0,0,1,1), (0,0,-1,1)]` with `roll = pitch = 0`, `yaw = 3/5`,
`thrust = 1/2`, the code's `mix_airmode_rpy` produces `[1, 0]` while the
claimed mix-then-single-thrust-desaturation produces `[11/10, -1/10]`:
the claim "performing no other desaturation pass" is false, the second
pass against the yaw column changes the outputs. -/
theorem mix_airmode_rpy_single_pass_cex :
    (mix_airmode_rpy ([⟨0, 0, 1, 1⟩, ⟨0, 0, -1, 1⟩] : List (Rotor ℚ))
        0 0 (3/5) (1/2) SatFlags.empty).1
      ≠ (mix_airmode_rpy_claimed ([⟨0, 0, 1, 1⟩, ⟨0, 0, -1, 1⟩] : List (Rotor ℚ))
        0 0 (3/5) (1/2) SatFlags.empty).1 := by
  norm_num [mix_airmode_rpy, mix_airmode_rpy_claimed, minimize_saturation,
    compute_desaturation_gain, desatBody, applyK, fltEps, abs]

/-- C5 amended: the full-authority policy computes each raw output as
`roll*roll_scale + pitch*pitch_scale + yaw*yaw_scale + thrust*thrust_scale`,
desaturates against the thrust column, and then performs exactly one
further desaturation pass against the yaw column (both passes two-sided
over the default bounds `[0, 1]`). -/
theorem mix_airmode_rpy_two_pass (rotors : List (Rotor α))
    (roll pitch yaw thrust : α) (sat : SatFlags) :
    mix_airmode_rpy rotors roll pitch yaw thrust sat
      = minimize_saturation (rotors.map Rotor.yaw_scale)
          (minimize_saturation (rotors.map Rotor.thrust_scale)
            (rotors.map fun r => roll * r.roll_scale + pitch * r.pitch_scale
              + yaw * r.yaw_scale + thrust * r.thrust_scale) sat 0 1 false).1
          (minimize_saturation (rotors.map Rotor.thrust_scale)
            (rotors.map fun r => roll * r.roll_scale + pitch * r.pitch_scale
              + yaw * r.yaw_scale + thrust * r.thrust_scale) sat 0 1 false).2
          0 1 false := rfl

/-- Witness for C5 at the counterexample input. -/
theorem mix_airmode_rpy_two_pass_w :
    mix_airmode_rpy ([⟨0, 0, 1, 1⟩, ⟨0, 0, -1, 1⟩] : List (Rotor ℚ))
        0 0 (3/5) (1/2) SatFlags.empty
      = minimize_saturation
          (([⟨0, 0, 1, 1⟩, ⟨0, 0, -1, 1⟩] : List (Rotor ℚ)).map Rotor.yaw_scale)
          (minimize_saturation
            (([⟨0, 0, 1, 1⟩, ⟨0, 0, -1, 1⟩] : List (Rotor ℚ)).map Rotor.thrust_scale)
            (([⟨0, 0, 1, 1⟩, ⟨0, 0, -1, 1⟩] : List (Rotor ℚ)).map fun r =>
              0 * r.roll_scale + 0 * r.pitch_scale
                + 3/5 * r.yaw_scale + 1/2 * r.thrust_scale)
            SatFlags.empty 0 1 false).1
          (minimize_saturation
            (([⟨0, 0, 1, 1⟩, ⟨0, 0, -1, 1⟩] : List (Rotor ℚ)).map Rotor.thrust_scale)
            (([⟨0, 0, 1, 1⟩, ⟨0, 0, -1, 1⟩] : List (Rotor ℚ)).map fun r =>
              0 * r.roll_scale + 0 * r.pitch_scale
                + 3/5 * r.yaw_scale + 1/2 * r.thrust_scale)
            SatFlags.empty 0 1 false).2
          0 1 false :=
  mix_airmode_rpy_two_pass [⟨0, 0, 1, 1⟩, ⟨0, 0, -1, 1⟩] 0 0 (3/5) (1/2)
    SatFlags.empty

end Desaturation

section TextDescriptor

open Mixer Mixer.Txt

/-- C9 counterexample: parsing `"R: 4x 10000 10000 10000 5000\n"` succeeds,
but the constructed mixer's stored idle speed is `0`, not `1/2`: the
geometry constructor shifts the parsed idle fraction to the output range
(`_idle_speed = -1 + idle * 2`, line 89). -/
theorem from_text_idle_cex :
    (from_text ("R: 4x 10000 10000 10000 5000\n".toList) 29).map
        MixerCfg.idleSpeed = some 0
      ∧ (0 : ℚ) ≠ 1/2 := by
  have h1 : from_text ("R: 4x 10000 10000 10000 5000\n".toList) 29
      = some (mkMultirotorMixer quadXRotors (((10000:ℤ):ℚ)/10000)
          (((10000:ℤ):ℚ)/10000) (((10000:ℤ):ℚ)/10000) (((5000:ℤ):ℚ)/10000)) :=
    rfl
  constructor
  · rw [h1]
    norm_num [mkMultirotorMixer]
  · norm_num

/-- C9 amended: parsing `"R: 4x 10000 10000 10000 5000\n"` against the
catalog containing the 4-rotor `"4x"` entry succeeds and yields a mixer
whose roll, pitch and yaw scales are 1 (each integer divided by 10000) and
whose stored idle speed is `-1 + (5000/10000)*2 = 0` (the parsed idle
fraction `1/2` shifted to the output range by the constructor); parsing an
unterminated line or an unknown geometry key fails and produces no mixer
instance. -/
theorem from_text_parse :
    (from_text ("R: 4x 10000 10000 10000 5000\n".toList) 29).map
        MixerCfg.rollScale = some 1
      ∧ (from_text ("R: 4x 10000 10000 10000 5000\n".toList) 29).map
          MixerCfg.pitchScale = some 1
      ∧ (from_text ("R: 4x 10000 10000 10000 5000\n".toList) 29).map
          MixerCfg.yawScale = some 1
      ∧ (from_text ("R: 4x 10000 10000 10000 5000\n".toList) 29).map
          MixerCfg.idleSpeed = some (-1 + (5000/10000) * 2)
      ∧ (from_text ("R: 4x 10000 10000 10000 5000\n".toList) 29).map
          MixerCfg.rotors = some quadXRotors
      ∧ from_text ("R: 4x 10000 10000 10000 5000".toList) 28 = none
      ∧ from_text ("R: 9z 10000 10000 10000 5000\n".toList) 29 = none := by
  have h1 : from_text ("R: 4x 10000 10000 10000 5000\n".toList) 29
      = some (mkMultirotorMixer quadXRotors (((10000:ℤ):ℚ)/10000)
          (((10000:ℤ):ℚ)/10000) (((10000:ℤ):ℚ)/10000) (((5000:ℤ):ℚ)/10000)) :=
    rfl
  refine ⟨?_, ?_, ?_, ?_, ?_, rfl, rfl⟩ <;> rw [h1] <;>
    norm_num [mkMultirotorMixer]

end TextDescriptor

section ConstrainSlew

open Mixer

variable {α : Type} [LinearOrderedField α]

lemma constrain_zero {lo hi : α} (h1 : lo ≤ 0) (h2 : 0 ≤ hi) :
    constrain 0 lo hi = 0 := by
  unfold constrain
  rw [if_neg (not_lt.mpr h1), if_neg (not_lt.mpr h2)]

lemma constrain_zero_lo {x hi : α} (hx : x ≤ 0) (hhi : 0 ≤ hi) :
    constrain x 0 hi = 0 := by
  unfold constrain
  by_cases h : x < 0
  · rw [if_pos h]
  · have hx0 : x = 0 := le_antisymm hx (not_lt.mp h)
    rw [if_neg h, hx0, if_neg (not_lt.mpr hhi)]

lemma constrain_lb {x : α} (lo hi : α) (h : lo ≤ hi) :
    lo ≤ constrain x lo hi := by
  unfold constrain
  by_cases h1 : x < lo
  · rw [if_pos h1]
  · rw [if_neg h1]
    by_cases h2 : x > hi
    · rw [if_pos h2]; exact h
    · rw [if_neg h2]; exact not_lt.mp h1

lemma constrain_ub {x : α} (lo hi : α) (h : lo ≤ hi) :
    constrain x lo hi ≤ hi := by
  unfold constrain
  by_cases h1 : x < lo
  · rw [if_pos h1]; exact h
  · rw [if_neg h1]
    by_cases h2 : x > hi
    · rw [if_pos h2]
    · rw [if_neg h2]; exact not_lt.mp h2

lemma slewLimit_high {prev out dmax : α} (h1 : 0 < dmax)
    (h2 : dmax < out - prev) : slewLimit prev out dmax = prev + dmax := by
  unfold slewLimit
  rw [if_pos h1, if_pos h2]

lemma slewLimit_low {prev out dmax : α} (h1 : 0 < dmax)
    (h2 : out - prev < -dmax) : slewLimit prev out dmax = prev - dmax := by
  unfold slewLimit
  rw [if_pos h1, if_neg (not_lt.mpr (h2.trans (neg_lt_self h1)).le),
    if_pos h2]

lemma slewLimit_off {prev out dmax : α} (h : dmax ≤ 0) :
    slewLimit prev out dmax = out := by
  unfold slewLimit
  rw [if_neg (not_lt.mpr h)]

end ConstrainSlew

section MixEntry

open Mixer Mixer.Vtol

/-- `mix` on the success path, written out. -/
lemma mix_out_eq (rotorCount : ℕ) (st : MixState) (c : ℕ → ℝ)
    (buf : ℕ → ℝ) (space : ℕ) (h : ¬ space < rotorCount) :
    mix rotorCount st c buf space
      = (7,
         fun j =>
           if j = 4 then slewLimit st.prev4 (vtolOut c 4) st.deltaOutMax
           else if j = 5 then slewLimit st.prev5 (vtolOut c 5) st.deltaOutMax
           else if j < 7 then vtolOut c j else buf j,
         ⟨slewLimit st.prev4 (vtolOut c 4) st.deltaOutMax,
          slewLimit st.prev5 (vtolOut c 5) st.deltaOutMax,
          0, SatFlags.empty⟩) := by
  unfold mix
  rw [if_neg h]

/-- The final output buffer of a passing `mix` call, as a function. -/
lemma mix_buffn (rotorCount : ℕ) (st : MixState) (c : ℕ → ℝ)
    (buf : ℕ → ℝ) (space : ℕ) (h : ¬ space < rotorCount) :
    (mix rotorCount st c buf space).2.1
      = fun j =>
          if j = 4 then slewLimit st.prev4 (vtolOut c 4) st.deltaOutMax
          else if j = 5 then slewLimit st.prev5 (vtolOut c 5) st.deltaOutMax
          else if j < 7 then vtolOut c j else buf j := by
  rw [mix_out_eq rotorCount st c buf space h]

/-- Output index 4 of a passing `mix` call is the slew-limited raw tilt
output 4. -/
lemma mix_buf4 (rotorCount : ℕ) (st : MixState) (c : ℕ → ℝ)
    (buf : ℕ → ℝ) (space : ℕ) (h : ¬ space < rotorCount) :
    (mix rotorCount st c buf space).2.1 4
      = slewLimit st.prev4 (vtolOut c 4) st.deltaOutMax := by
  refine (congrFun (mix_buffn rotorCount st c buf space h) 4).trans ?_
  show (if (4:ℕ) = 4 then slewLimit st.prev4 (vtolOut c 4) st.deltaOutMax
        else if (4:ℕ) = 5 then slewLimit st.prev5 (vtolOut c 5) st.deltaOutMax
        else if (4:ℕ) < 7 then vtolOut c 4 else buf 4)
      = slewLimit st.prev4 (vtolOut c 4) st.deltaOutMax
  rw [if_pos rfl]

/-- Output index 5 of a passing `mix` call is the slew-limited raw tilt
output 5. -/
lemma mix_buf5 (rotorCount : ℕ) (st : MixState) (c : ℕ → ℝ)
    (buf : ℕ → ℝ) (space : ℕ) (h : ¬ space < rotorCount) :
    (mix rotorCount st c buf space).2.1 5
      = slewLimit st.prev5 (vtolOut c 5) st.deltaOutMax := by
  refine (congrFun (mix_buffn rotorCount st c buf space h) 5).trans ?_
  show (if (5:ℕ) = 4 then slewLimit st.prev4 (vtolOut c 4) st.deltaOutMax
        else if (5:ℕ) = 5 then slewLimit st.prev5 (vtolOut c 5) st.deltaOutMax
        else if (5:ℕ) < 7 then vtolOut c 5 else buf 5)
      = slewLimit st.prev5 (vtolOut c 5) st.deltaOutMax
  rw [if_neg (by norm_num : ¬ (5:ℕ) = 4), if_pos rfl]

/-- C7: on any `mix` call that passes the capacity guard, each of the two
tilt outputs (buffer indices 4 and 5) is slew-limited against the stored
previous value: when `_delta_out_max > 0` and the requested change exceeds
it in magnitude, the applied change is exactly `_delta_out_max` in the
direction of the request; when `_delta_out_max ≤ 0`, the raw `mix_vtol`
outputs pass through unconstrained. -/
theorem mix_slew_limits (rotorCount : ℕ) (st : MixState) (c : ℕ → ℝ)
    (buf : ℕ → ℝ) (space : ℕ) (hspace : ¬ space < rotorCount) :
    (0 < st.deltaOutMax →
      (st.deltaOutMax < vtolOut c 4 - st.prev4 →
        (mix rotorCount st c buf space).2.1 4 = st.prev4 + st.deltaOutMax)
      ∧ (vtolOut c 4 - st.prev4 < -st.deltaOutMax →
        (mix rotorCount st c buf space).2.1 4 = st.prev4 - st.deltaOutMax)
      ∧ (st.deltaOutMax < vtolOut c 5 - st.prev5 →
        (mix rotorCount st c buf space).2.1 5 = st.prev5 + st.deltaOutMax)
      ∧ (vtolOut c 5 - st.prev5 < -st.deltaOutMax →
        (mix rotorCount st c buf space).2.1 5 = st.prev5 - st.deltaOutMax))
    ∧ (st.deltaOutMax ≤ 0 →
        (mix rotorCount st c buf space).2.1 4 = vtolOut c 4
        ∧ (mix rotorCount st c buf space).2.1 5 = vtolOut c 5) := by
  have h4 := mix_buf4 rotorCount st c buf space hspace
  have h5 := mix_buf5 rotorCount st c buf space hspace
  constructor
  · intro hd
    exact ⟨fun hh => by rw [h4, slewLimit_high hd hh],
      fun hh => by rw [h4, slewLimit_low hd hh],
      fun hh => by rw [h5, slewLimit_high hd hh],
      fun hh => by rw [h5, slewLimit_low hd hh]⟩
  · intro hd
    exact ⟨by rw [h4, slewLimit_off hd], by rw [h5, slewLimit_off hd]⟩

end MixEntry

section VtolEval

open Mixer Mixer.Vtol Real

lemma d_chi_max_nonneg : 0 ≤ d_chi_max := by
  unfold d_chi_max radians
  positivity

lemma delta_min_nonpos : delta_min ≤ 0 := by
  unfold delta_min radians
  have := Real.pi_pos
  nlinarith

lemma delta_max_nonneg : 0 ≤ delta_max := by
  unfold delta_max radians
  positivity

lemma chi_cmd_eq_zero {c : ℕ → ℝ} (h : c 4 = 0) : chi_cmd c = 0 := by
  unfold chi_cmd
  rw [h, constrain_zero (by norm_num) (by norm_num), zero_mul]

lemma tiltScale_eq_zero {c : ℕ → ℝ} (hT : T c ≤ 2) : tiltScale c = 0 := by
  unfold tiltScale
  exact constrain_zero_lo (by linarith) zero_le_one

lemma d_chi_r_eq_zero_of_T {c : ℕ → ℝ} (hT : T c ≤ 2) : d_chi_r c = 0 := by
  unfold d_chi_r
  rw [tiltScale_eq_zero hT, zero_mul]

lemma d_chi_l_eq_zero_of_T {c : ℕ → ℝ} (hT : T c ≤ 2) : d_chi_l c = 0 := by
  unfold d_chi_l
  rw [tiltScale_eq_zero hT, zero_mul]

lemma T_zero : T (fun _ => 0) = 0 := by
  unfold T
  rw [constrain_zero le_rfl zero_le_one, zero_mul]

lemma chi_l_zero : chi_l (fun _ => 0) = 0 := by
  unfold chi_l
  rw [chi_cmd_eq_zero rfl, d_chi_l_eq_zero_of_T (by rw [T_zero]; norm_num),
    constrain_zero (neg_nonpos.mpr d_chi_max_nonneg) d_chi_max_nonneg,
    add_zero]

lemma chi_r_zero : chi_r (fun _ => 0) = 0 := by
  unfold chi_r
  rw [chi_cmd_eq_zero rfl, d_chi_r_eq_zero_of_T (by rw [T_zero]; norm_num),
    constrain_zero (neg_nonpos.mpr d_chi_max_nonneg) d_chi_max_nonneg,
    add_zero]

lemma vtolOut_zero_4 : vtolOut (fun _ => 0) 4 = 0.7106 := by
  norm_num [vtolOut, chi_l_zero]

lemma vtolOut_zero_5 : vtolOut (fun _ => 0) 5 = -0.7106 := by
  norm_num [vtolOut, chi_r_zero]

/-- Witness for C7: previous tilt outputs `(10, -10)`, slew budget 1, all
controls zero (so the raw tilt outputs are `0.7106` and `-0.7106`): the
requested change at index 4 is below `-1`, and the applied output is
exactly `10 - 1`. -/
theorem mix_slew_limits_w :
    ¬ (7 : ℕ) < 4
      ∧ (0 : ℝ) < 1
      ∧ Mixer.Vtol.vtolOut (fun _ => 0) 4 - 10 < -1
      ∧ (Mixer.Vtol.mix 4 ⟨10, -10, 1, SatFlags.empty⟩ (fun _ => 0)
          (fun _ => 0) 7).2.1 4 = 10 - 1 := by
  have hlt : Mixer.Vtol.vtolOut (fun _ => 0) 4 - 10 < -(1:ℝ) := by
    rw [vtolOut_zero_4]; norm_num
  refine ⟨by norm_num, by norm_num, hlt, ?_⟩
  exact (((mix_slew_limits 4 ⟨10, -10, 1, SatFlags.empty⟩ (fun _ => 0)
    (fun _ => 0) 7 (by norm_num)).1 (by norm_num)).2.1) hlt

/-- C8 counterexample: a `mix` call that fails the capacity guard
(`space = 0 < _rotor_count = 4`) returns before the reset on line 559 and
leaves the previous cycle's saturation flags in place: the claim "at the
start of every mix call all saturation status flags are cleared" fails on
that call. -/
theorem mix_sat_leak_cex :
    ((Mixer.Vtol.mix 4
        ⟨0, 0, 0, ⟨true, true, true, true, true, true, true, true, true,
          true, true⟩⟩
        (fun _ => 0) (fun _ => 0) 0).2.2).sat ≠ SatFlags.empty := by
  have h : Mixer.Vtol.mix 4
      ⟨0, 0, 0, ⟨true, true, true, true, true, true, true, true, true,
        true, true⟩⟩
      (fun _ => 0) (fun _ => 0) 0
      = (0, (fun _ => 0),
         ⟨0, 0, 0, ⟨true, true, true, true, true, true, true, true, true,
           true, true⟩⟩) := by
    unfold Mixer.Vtol.mix
    rw [if_pos (by norm_num : (0:ℕ) < 4)]
  rw [h]
  decide

/-- C8 amended: on every `mix` call that passes the capacity guard, the
saturation flags are reset and the state after the call carries the empty
report, regardless of the flags left by the previous cycle. -/
theorem mix_clears_saturation (rotorCount : ℕ) (st : MixState) (c : ℕ → ℝ)
    (buf : ℕ → ℝ) (space : ℕ) (hspace : ¬ space < rotorCount) :
    ((mix rotorCount st c buf space).2.2).sat = SatFlags.empty := by
  rw [mix_out_eq rotorCount st c buf space hspace]

/-- Witness for C8: a passing call (`space = 7 ≥ 4`) starting from the
all-true flag set ends with the empty flag set. -/
theorem mix_clears_saturation_w :
    ((Mixer.Vtol.mix 4
        ⟨0, 0, 0, ⟨true, true, true, true, true, true, true, true, true,
          true, true⟩⟩
        (fun _ => 0) (fun _ => 0) 7).2.2).sat = SatFlags.empty :=
  mix_clears_saturation 4
    ⟨0, 0, 0, ⟨true, true, true, true, true, true, true, true, true,
      true, true⟩⟩
    (fun _ => 0) (fun _ => 0) 7 (by norm_num)

/-- C1: evaluating `mix` at the failing input — a quad-X instance
(`_rotor_count = 4`) called with `space = 4` while the function produces 7
outputs.  The guard passes, the call returns 7 (not 0), and the buffer is
written at index 5, beyond the supplied capacity: the claimed contract
"returns 0 and writes nothing whenever the capacity is smaller than the
number of outputs produced" does not hold of the code. -/
theorem mix_capacity_bug :
    (Mixer.Vtol.mix 4 ⟨0, 0, 0, SatFlags.empty⟩ (fun _ => 0)
        (fun _ => 0) 4).1 = 7
      ∧ (Mixer.Vtol.mix 4 ⟨0, 0, 0, SatFlags.empty⟩ (fun _ => 0)
          (fun _ => 0) 4).2.1 5 ≠ 0
      ∧ (4 : ℕ) < 7 := by
  have hm := mix_out_eq 4 ⟨0, 0, 0, SatFlags.empty⟩ (fun _ => 0)
    (fun _ => 0) 4 (by norm_num)
  refine ⟨by rw [hm], ?_, by norm_num⟩
  rw [mix_buf5 4 ⟨0, 0, 0, SatFlags.empty⟩ (fun _ => 0) (fun _ => 0) 4
    (by norm_num)]
  rw [slewLimit_off le_rfl, vtolOut_zero_5]
  norm_num

/-- C10: for every control input, the clamped airspeed input lies in
`[1e-8, 1]`, hence the dynamic pressure `q_bar` and the derived
aerodynamic moment factors `L_`, `M_` and `N_` are strictly positive — the
divisions by them in the control-surface deflection computation are never
divisions by zero. -/
theorem vtol_aero_factors_pos (c : ℕ → ℝ) :
    (1e-8 : ℝ) ≤ constrain (c 5) 1e-8 1
      ∧ constrain (c 5) 1e-8 1 ≤ 1
      ∧ 0 < q_bar c ∧ 0 < L_ c ∧ 0 < M_ c ∧ 0 < N_ c := by
  have h1 : (1e-8 : ℝ) ≤ constrain (c 5) 1e-8 1 :=
    constrain_lb _ _ (by norm_num)
  have h2 : constrain (c 5) 1e-8 1 ≤ 1 := constrain_ub _ _ (by norm_num)
  have ha : 0 < airspd c := by
    unfold airspd AIRSPD_MAX
    have h0 : (0 : ℝ) < constrain (c 5) 1e-8 1 :=
      lt_of_lt_of_le (by norm_num) h1
    nlinarith
  have hq : 0 < q_bar c := by
    unfold q_bar
    nlinarith
  refine ⟨h1, h2, hq, ?_, ?_, ?_⟩
  · unfold L_ L_factor C_La S b; nlinarith
  · unfold M_ M_factor C_Me S c_bar; nlinarith
  · unfold N_ N_factor C_Nr S b; nlinarith

/-- C6: with airspeed at or above the full-authority ramp threshold
(clamped input ≥ 1/4, i.e. ≥ 10 m/s after denormalization), tilt command 0
and residual roll and yaw moments both zero, the right-side and left-side
tilt-angle corrections computed by the allocation are equal in magnitude
and opposite in sign (`d_chi_r = -d_chi_l`; both reduce to 0, so they are
also equal). -/
theorem vtol_tilt_corrections_opposite (c : ℕ → ℝ)
    (hair : 1/4 ≤ c 5) (hchi : c 4 = 0)
    (hL : Lres c = 0) (hN : Nres c = 0) :
    d_chi_r c = - d_chi_l c := by
  have hc : chi_cmd c = 0 := chi_cmd_eq_zero hchi
  have heven : ∀ i : ℕ, i % 2 = 0 → v c i = 0 := by
    intro i hi
    simp [v, hc, hL, hN, Apinv, hi]
  have h13 : v c 1 + v c 3 = 1/2 * T c := by
    simp [v, hc, hL, hN, Apinv, sign_1, sign_2, sign_3, l_arm, temp1, temp2,
      denom_1, l_34, l_1, l_3, l_4, h_0, L_0, C, C_Q, C_T]
    ring_nf
  have h57 : v c 5 + v c 7 = 1/2 * T c := by
    simp [v, hc, hL, hN, Apinv, sign_1, sign_2, sign_3, l_arm, temp1, temp2,
      denom_1, l_34, l_1, l_3, l_4, h_0, L_0, C, C_Q, C_T]
    ring_nf
  have hr : d_chi_r c = tiltScale c * atan2 0 (1/2 * T c) := by
    unfold d_chi_r
    rw [heven 0 (by norm_num), heven 2 (by norm_num), h13]
    norm_num
  have hl : d_chi_l c = tiltScale c * atan2 0 (1/2 * T c) := by
    unfold d_chi_l
    rw [heven 4 (by norm_num), heven 6 (by norm_num), h57]
    norm_num
  have h0 : tiltScale c * atan2 0 (1/2 * T c) = 0 := by
    rcases le_or_lt (T c) 2 with hT | hT
    · rw [tiltScale_eq_zero hT, zero_mul]
    · have hx : (0:ℝ) < 1/2 * T c := by linarith
      unfold atan2
      rw [if_pos hx, zero_div, Real.arctan_zero, mul_zero]
  rw [hr, hl, h0, neg_zero]

/-- Witness for C6: controls with airspeed input `1/2` (≥ the `1/4` ramp
threshold) and every other channel zero: the residual roll and yaw moments
are zero and the two tilt corrections are opposite. -/
theorem vtol_tilt_corrections_opposite_w :
    (1/4 : ℝ) ≤ (fun i => if i = 5 then (1/2 : ℝ) else 0) 5
      ∧ (fun i => if i = 5 then (1/2 : ℝ) else 0) 4 = 0
      ∧ Lres (fun i => if i = 5 then (1/2 : ℝ) else 0) = 0
      ∧ Nres (fun i => if i = 5 then (1/2 : ℝ) else 0) = 0
      ∧ d_chi_r (fun i => if i = 5 then (1/2 : ℝ) else 0)
          = - d_chi_l (fun i => if i = 5 then (1/2 : ℝ) else 0) := by
  have hLm : Lm (fun i => if i = 5 then (1/2 : ℝ) else 0) = 0 := by
    norm_num [Lm, Mixer.constrain]
  have hNm : Nm (fun i => if i = 5 then (1/2 : ℝ) else 0) = 0 := by
    norm_num [Nm, Mixer.constrain]
  have hda : delta_a (fun i => if i = 5 then (1/2 : ℝ) else 0) = 0 := by
    unfold delta_a
    rw [hLm, zero_div, zero_mul]
    exact constrain_zero delta_min_nonpos delta_max_nonneg
  have hdr : delta_r (fun i => if i = 5 then (1/2 : ℝ) else 0) = 0 := by
    unfold delta_r
    rw [hNm, zero_div, zero_mul]
    exact constrain_zero delta_min_nonpos delta_max_nonneg
  have hLres : Lres (fun i => if i = 5 then (1/2 : ℝ) else 0) = 0 := by
    unfold Lres
    rw [hLm, hda, mul_zero, sub_zero]
  have hNres : Nres (fun i => if i = 5 then (1/2 : ℝ) else 0) = 0 := by
    unfold Nres
    rw [hNm, hdr, mul_zero, sub_zero]
  exact ⟨by norm_num, by norm_num, hLres, hNres,
    vtol_tilt_corrections_opposite _ (by norm_num) (by norm_num) hLres hNres⟩

end VtolEval
